import Mathlib

/-!
Verification of `axlearn/cloud/gcp/node_pool_provisioner.py`
(`TPUNodePoolProvisioner.create_for` / `TPUNodePoolProvisioner.delete_for`).

The Python module is shallowly embedded below.  External collaborators of the
module (the `USER_FACING_NAME_TO_SYSTEM_CHARACTERISTICS` catalog, the
`infer_tpu_type` normalizer, `construct_node_pool_name`, and the bastion
jobspec deserializer) are passed in as function parameters, since the module
only calls them; `hashlib.sha1(...).hexdigest()` from the Python standard
library is embedded in full (the standard SHA-1 algorithm over UTF-8 bytes),
because one claim speaks about the digest itself.

The side effects of `create_for` / `delete_for` are exactly one call to
`create_node_pools` / `delete_node_pools` on success, so the embeddings return
the argument record of that call (`CreateNodePoolsCall` / `DeleteNodePoolsCall`)
in `Except`; an `Except.error` result models a raised exception, in which case
no control-plane call is issued.
-/

set_option maxRecDepth 100000

namespace NodePoolProvisioner

/-! ### SHA-1 (Python `hashlib.sha1(...).hexdigest()` over `str.encode()`) -/

/-- Truncation to a 32-bit word. -/
def w32 (n : Nat) : Nat := n % 4294967296

/-- 32-bit left rotation (argument assumed `< 2^32`). -/
def rotl32 (s x : Nat) : Nat := ((x <<< s) ||| (x >>> (32 - s))) % 4294967296

/-- SHA-1 round function, by round index. -/
def sha1F (i b c d : Nat) : Nat :=
  if i < 20 then (b &&& c) ||| ((Nat.xor b 4294967295) &&& d)
  else if i < 40 then Nat.xor (Nat.xor b c) d
  else if i < 60 then (b &&& c) ||| (b &&& d) ||| (c &&& d)
  else Nat.xor (Nat.xor b c) d

/-- SHA-1 round constant, by round index. -/
def sha1K (i : Nat) : Nat :=
  if i < 20 then 1518500249
  else if i < 40 then 1859775393
  else if i < 60 then 2400959708
  else 3395469782

/-- Big-endian 64-bit encoding of the message bit length. -/
def sha1LenBytes (n : Nat) : List Nat :=
  [(n >>> 56) % 256, (n >>> 48) % 256, (n >>> 40) % 256, (n >>> 32) % 256,
   (n >>> 24) % 256, (n >>> 16) % 256, (n >>> 8) % 256, n % 256]

/-- SHA-1 padding: append `0x80`, zero bytes to 56 mod 64, then the bit length. -/
def sha1Pad (msg : List Nat) : List Nat :=
  msg ++ [128] ++ List.replicate ((119 - msg.length % 64) % 64) 0
      ++ sha1LenBytes (8 * msg.length)

/-- Big-endian packing of bytes into 32-bit words. -/
def bytesToWords : List Nat → List Nat
  | b0 :: b1 :: b2 :: b3 :: rest =>
      (((b0 * 256 + b1) * 256 + b2) * 256 + b3) :: bytesToWords rest
  | _ => []

/-- Take `k` successive 64-byte chunks from the front of a byte list. -/
def chunksGo : Nat → List Nat → List (List Nat)
  | 0, _ => []
  | k + 1, l => l.take 64 :: chunksGo k (l.drop 64)

/-- Split a (padded) byte list, whose length is a multiple of 64, into
64-byte chunks. -/
def chunks64 (l : List Nat) : List (List Nat) := chunksGo (l.length / 64) l

/-- The five 32-bit words of SHA-1 state. -/
structure Sha1State where
  a : Nat
  b : Nat
  c : Nat
  d : Nat
  e : Nat
deriving DecidableEq, Repr

/-- SHA-1 initialization vector. -/
def sha1Init : Sha1State :=
  { a := 1732584193, b := 4023233417, c := 2562383102, d := 271733878, e := 3285377520 }

/-- One step of the 16→80 message-schedule expansion. -/
def sha1ExpandStep (w : Array Nat) (j : Nat) : Array Nat :=
  let i := j + 16
  w.push (rotl32 1 (Nat.xor (Nat.xor (w.getD (i - 3) 0) (w.getD (i - 8) 0))
    (Nat.xor (w.getD (i - 14) 0) (w.getD (i - 16) 0))))

/-- Expand the 16 chunk words to the 80-word schedule. -/
def sha1Expand (w : Array Nat) : Array Nat := (List.range 64).foldl sha1ExpandStep w

/-- One SHA-1 compression round. -/
def sha1Round (w : Array Nat) (st : Sha1State) (i : Nat) : Sha1State :=
  let temp := w32 (rotl32 5 st.a + sha1F i st.b st.c st.d + st.e + sha1K i + w.getD i 0)
  { a := temp, b := st.a, c := rotl32 30 st.b, d := st.c, e := st.d }

/-- Process one 64-byte chunk. -/
def sha1Chunk (h : Sha1State) (chunk : List Nat) : Sha1State :=
  let w := sha1Expand (bytesToWords chunk).toArray
  let st := (List.range 80).foldl (sha1Round w) h
  { a := w32 (h.a + st.a), b := w32 (h.b + st.b), c := w32 (h.c + st.c),
    d := w32 (h.d + st.d), e := w32 (h.e + st.e) }

/-- SHA-1 over a byte list, as the final five-word state. -/
def sha1Words (msg : List Nat) : Sha1State :=
  (chunks64 (sha1Pad msg)).foldl sha1Chunk sha1Init

/-- Lowercase hexadecimal digit. -/
def hexChar (n : Nat) : Char :=
  if n < 10 then Char.ofNat (48 + n) else Char.ofNat (87 + n)

/-- Eight lowercase hex digits of a 32-bit word, most significant first. -/
def wordHex (w : Nat) : List Char :=
  [hexChar ((w >>> 28) % 16), hexChar ((w >>> 24) % 16), hexChar ((w >>> 20) % 16),
   hexChar ((w >>> 16) % 16), hexChar ((w >>> 12) % 16), hexChar ((w >>> 8) % 16),
   hexChar ((w >>> 4) % 16), hexChar (w % 16)]

/-- SHA-1 hex digest of a byte list (40 lowercase hex characters). -/
def sha1HexBytes (msg : List Nat) : String :=
  let st := sha1Words msg
  ⟨wordHex st.a ++ wordHex st.b ++ wordHex st.c ++ wordHex st.d ++ wordHex st.e⟩

/-- UTF-8 encoding of one character, as byte values (Python `str.encode()`). -/
def utf8EncodeCharNat (c : Char) : List Nat :=
  let n := c.toNat
  if n < 128 then [n]
  else if n < 2048 then [192 ||| (n >>> 6), 128 ||| (n &&& 63)]
  else if n < 65536 then
    [224 ||| (n >>> 12), 128 ||| ((n >>> 6) &&& 63), 128 ||| (n &&& 63)]
  else
    [240 ||| (n >>> 18), 128 ||| ((n >>> 12) &&& 63), 128 ||| ((n >>> 6) &&& 63),
     128 ||| (n &&& 63)]

/-- UTF-8 bytes of a string (Python `str.encode()`). -/
def strBytes (s : String) : List Nat := (s.data.map utf8EncodeCharNat).flatten

/-- Python `hashlib.sha1(s.encode()).hexdigest()`. -/
def sha1Hex (s : String) : String := sha1HexBytes (strBytes s)

/-! ### Data model of `node_pool_provisioner.py` -/

/-- The concrete `GKEJob` subclass of the `job` argument.  `create_for` and
`delete_for` dispatch on it with `isinstance`; `otherGKEJob` stands for any
`GKEJob` subclass outside `_PRE_PROVISIONER_SUPPORTED_JOBS`. -/
inductive JobKind where
  | tpuGKEJob
  | flinkTPUGKEJob
  | otherGKEJob
deriving DecidableEq, Repr

/-- Python `_PRE_PROVISIONER_SUPPORTED_JOBS = (TPUGKEJob, FlinkTPUGKEJob)`, as the
predicate `isinstance(job, _PRE_PROVISIONER_SUPPORTED_JOBS)`. -/
def _PRE_PROVISIONER_SUPPORTED_JOBS (k : JobKind) : Bool :=
  k == .tpuGKEJob || k == .flinkTPUGKEJob

/-- Python `_INFERENCE_JOBS = (FlinkTPUGKEJob,)`, as the predicate
`isinstance(job, _INFERENCE_JOBS)`. -/
def _INFERENCE_JOBS (k : JobKind) : Bool := k == .flinkTPUGKEJob

/-- The `accelerator` part of the builder config (`acc_cfg`). -/
structure AcceleratorConfig where
  instance_type : String
  num_replicas : Nat
deriving DecidableEq, Repr

/-- The `TPUReplicatedJob.Config` fields read via `builder_cfg`. -/
structure TPUReplicatedJobConfig where
  accelerator : AcceleratorConfig
  reservation : Option String
  location_hint : Option String
  enable_tpu_ici_resiliency : Bool
  enable_tpu_smart_repair : Bool
deriving DecidableEq, Repr

/-- The `TPUGKEJob.Config` fields read via `job_cfg`.  `jobset_namespace`
embeds the Python field `namespace` (a Lean keyword), named after the keyword
argument it is passed to in `construct_node_pool_name`. -/
structure JobConfig where
  name : String
  jobset_namespace : String
  builder : TPUReplicatedJobConfig
deriving DecidableEq, Repr

/-- The `job` argument: its concrete class together with its config. -/
structure Job where
  kind : JobKind
  config : JobConfig
deriving DecidableEq, Repr

/-- Python `TPUNodePoolProvisioner.Config` (`cfg = self.config`). -/
structure ProvisionerConfig where
  project : String
  zone : String
  cluster : String
  name : String
  service_account_email : Option String
  retry_interval : Nat
  wait_timeout : Nat
deriving DecidableEq, Repr

/-- One entry of `USER_FACING_NAME_TO_SYSTEM_CHARACTERISTICS`
(`job_sys_property`), restricted to the fields this module reads. -/
structure SystemCharacteristics where
  vms_per_slice : Nat
  gce_machine_type : String
  topology : String
deriving DecidableEq, Repr

/-- The process environment as this module reads it:
`os.environ.get("BASTION_TIER", 0)` and
`os.environ.get(_BASTION_SERIALIZED_JOBSPEC_ENV_VAR)`. -/
structure Env where
  bastion_tier : Option String
  bastion_serialized_jobspec : Option String
deriving DecidableEq, Repr

/-- The value of `os.environ.get("BASTION_TIER", 0)`: the environment string
when the variable is set, and the Python `int` default `0` otherwise. -/
inductive TierValue where
  | intZero
  | str (s : String)
deriving DecidableEq, Repr

/-- Python `tier = os.environ.get("BASTION_TIER", 0)`. -/
def getBastionTier (env : Env) : TierValue :=
  match env.bastion_tier with
  | some s => .str s
  | none => .intZero

/-- Python `tier == "0"`.  The `int` default `0` compares unequal to the
string `"0"` in Python, so the absent-variable case yields `false`. -/
def tierEqStrZero : TierValue → Bool
  | .str s => s == "0"
  | .intZero => false

/-- The spot/reservation branch of `create_for`:
`use_spot_vm = False` keeping the requested reservation when
`tier == "0" and reservation is not None`, else `use_spot_vm = True` and
`reservation = None`. -/
def provisioning_decision (env : Env) (reservation : Option String) :
    Bool × Option String :=
  if tierEqStrZero (getBastionTier env) && reservation.isSome then
    (false, reservation)
  else
    (true, none)

/-- Resolution of `job_priority`: read `spec.metadata.priority` from the deserialized
jobspec when the jobspec environment variable is set and truthy (a set but
empty string is falsy in Python).  `deserialize_priority` stands for the
external `deserialize_jobspec(io.StringIO(...)).metadata.priority`, returning
`none` when that field is `None`. -/
def resolved_job_priority (deserialize_priority : String → Option Int)
    (env : Env) : Option Int :=
  match env.bastion_serialized_jobspec with
  | some s => if s = "" then none else deserialize_priority s
  | none => none

/-- The f-string `f"{job_cfg.namespace}/{job_cfg.name}-job-{i}"` hashed into
`job_key`. -/
def job_key_string (ns jobName : String) (i : Nat) : String :=
  ns ++ "/" ++ jobName ++ "-job-" ++ toString i

/-- The `additional_labels` dict built for replica index `i`: the `job-key`
entry, then `job-priority` when a priority was resolved, then the
auto-restart entry when `enable_tpu_smart_repair` is set.  The keys are
pairwise distinct, so the insert-ordered association list is the dict. -/
def additional_labels (job_priority : Option Int)
    (enable_tpu_smart_repair : Bool) (ns jobName : String) (i : Nat) :
    List (String × String) :=
  [("job-key", sha1Hex (job_key_string ns jobName i))]
    ++ (match job_priority with
        | some p => [("job-priority", toString p)]
        | none => [])
    ++ (if enable_tpu_smart_repair then
          [("cloud.google.com/gke-tpu-auto-restart", "true")]
        else [])

/-- Python dict lookup on the association-list rendering of a labels dict. -/
def lookupLabel (labels : List (String × String)) (key : String) :
    Option String :=
  (labels.find? (fun kv => kv.1 == key)).map (fun kv => kv.2)

/-- The full argument record of the one `create_node_pools(...)` call that a
successful `create_for` issues. -/
structure CreateNodePoolsCall where
  node_pool_names : List String
  project : String
  zone : String
  cluster : String
  pre_provisioner_id : String
  num_nodes_per_pool : Nat
  machine_type : String
  topology : Option String
  use_spot_vm : Bool
  reservation : Option String
  location_hint : Option String
  enable_tpu_ici_resiliency : Bool
  service_account_email : Option String
  additional_labels_list : List (List (String × String))
  retry_interval : Nat
  wait_timeout : Nat
deriving DecidableEq, Repr

/-- The full argument record of the one `delete_node_pools(...)` call that a
successful `delete_for` issues. -/
structure DeleteNodePoolsCall where
  node_pool_names : List String
  project : String
  zone : String
  cluster : String
  retry_interval : Nat
  wait_timeout : Nat
deriving DecidableEq, Repr

/-- The exceptions `create_for` / `delete_for` can raise before any
control-plane call: the `TypeError` for unsupported job classes, and the
`KeyError` of the `USER_FACING_NAME_TO_SYSTEM_CHARACTERISTICS[tpu_type]`
lookup. -/
inductive ProvisionError where
  | typeError (kind : JobKind)
  | keyError (key : String)
deriving DecidableEq, Repr

/-! ### `TPUNodePoolProvisioner.create_for` and `delete_for` -/

/-- Python method `TPUNodePoolProvisioner.create_for(job)`.  The external collaborators are
parameters: `infer_tpu_type` (from `axlearn.cloud.gcp.tpu`), the catalog
`user_facing_name_to_system_characteristics` (a `KeyError`-raising dict,
embedded as an `Option`-valued map), `construct_node_pool_name` (from
`axlearn.cloud.gcp.node_pool`, called with keyword arguments
`jobset_namespace`, `jobset_name`, `index`), and `deserialize_priority` (the
jobspec deserialization chain).  Returns the `create_node_pools` argument
record on success; the per-index loop appending to `node_pool_names` and
`additional_labels_list` is rendered as two maps over `List.range`. -/
def create_for (infer_tpu_type : String → String)
    (user_facing_name_to_system_characteristics :
      String → Option SystemCharacteristics)
    (construct_node_pool_name : String → String → Nat → String)
    (deserialize_priority : String → Option Int)
    (cfg : ProvisionerConfig) (env : Env) (job : Job) :
    Except ProvisionError CreateNodePoolsCall :=
  if _PRE_PROVISIONER_SUPPORTED_JOBS job.kind then
    let job_cfg := job.config
    let builder_cfg := job_cfg.builder
    let acc_cfg := builder_cfg.accelerator
    let tpu_type := infer_tpu_type acc_cfg.instance_type
    match user_facing_name_to_system_characteristics tpu_type with
    | none => .error (.keyError tpu_type)
    | some job_sys_property =>
      let num_node_pools := acc_cfg.num_replicas
      let decision := provisioning_decision env builder_cfg.reservation
      let job_priority := resolved_job_priority deserialize_priority env
      let node_pool_names := (List.range num_node_pools).map
        (fun i => construct_node_pool_name job_cfg.jobset_namespace job_cfg.name i)
      let additional_labels_list := (List.range num_node_pools).map
        (fun i => additional_labels job_priority builder_cfg.enable_tpu_smart_repair
          job_cfg.jobset_namespace job_cfg.name i)
      .ok {
        node_pool_names := node_pool_names,
        project := cfg.project,
        zone := cfg.zone,
        cluster := cfg.cluster,
        pre_provisioner_id := cfg.name,
        num_nodes_per_pool := job_sys_property.vms_per_slice,
        machine_type := job_sys_property.gce_machine_type,
        topology := if _INFERENCE_JOBS job.kind then none
                    else some job_sys_property.topology,
        use_spot_vm := decision.1,
        reservation := decision.2,
        location_hint := builder_cfg.location_hint,
        enable_tpu_ici_resiliency := builder_cfg.enable_tpu_ici_resiliency,
        service_account_email := cfg.service_account_email,
        additional_labels_list := additional_labels_list,
        retry_interval := cfg.retry_interval,
        wait_timeout := cfg.wait_timeout
      }
  else
    .error (.typeError job.kind)

/-- Python method `TPUNodePoolProvisioner.delete_for(job)`.  Note that it reads neither the
catalog nor the environment: its only external collaborator is
`construct_node_pool_name`. -/
def delete_for (construct_node_pool_name : String → String → Nat → String)
    (cfg : ProvisionerConfig) (job : Job) :
    Except ProvisionError DeleteNodePoolsCall :=
  if _PRE_PROVISIONER_SUPPORTED_JOBS job.kind then
    let job_cfg := job.config
    let num_node_pools := job_cfg.builder.accelerator.num_replicas
    .ok {
      node_pool_names := (List.range num_node_pools).map
        (fun i => construct_node_pool_name job_cfg.jobset_namespace job_cfg.name i),
      project := cfg.project,
      zone := cfg.zone,
      cluster := cfg.cluster,
      retry_interval := cfg.retry_interval,
      wait_timeout := cfg.wait_timeout
    }
  else
    .error (.typeError job.kind)

/-- Returns `true` iff the call returned without raising. -/
def isOkResult {ε α : Type} : Except ε α → Bool
  | .ok _ => true
  | .error _ => false

end NodePoolProvisioner


namespace NodePoolProvisioner

def inferC (s : String) : String := if s == "tpu-v4-8" then "v4-8" else s

def scV4 : SystemCharacteristics :=
  { vms_per_slice := 4, gce_machine_type := "tpu-v5", topology := "2x2x1" }

def catalogC (t : String) : Option SystemCharacteristics :=
  if t == "v4-8" then some scV4 else none

def cnpnC (ns jobName : String) (i : Nat) : String :=
  ns ++ "-" ++ jobName ++ "-" ++ toString i

def deserC (s : String) : Option Int := if s == "prio5" then some 5 else none

def cfgC : ProvisionerConfig :=
  { project := "proj", zone := "z1", cluster := "cl", name := "pp",
    service_account_email := none, retry_interval := 30, wait_timeout := 1800 }

def accA : AcceleratorConfig := { instance_type := "tpu-v4-8", num_replicas := 1 }

def builderA : TPUReplicatedJobConfig :=
  { accelerator := accA, reservation := some "resA", location_hint := none,
    enable_tpu_ici_resiliency := false, enable_tpu_smart_repair := true }

def jobCfgA : JobConfig :=
  { name := "job1", jobset_namespace := "ns1", builder := builderA }

def jobA : Job := { kind := .tpuGKEJob, config := jobCfgA }

def envTier0 : Env := { bastion_tier := some "0", bastion_serialized_jobspec := none }
def envTier1 : Env := { bastion_tier := some "1", bastion_serialized_jobspec := none }
def envNoTier : Env := { bastion_tier := none, bastion_serialized_jobspec := none }
def envPrio : Env := { bastion_tier := some "0", bastion_serialized_jobspec := some "prio5" }

def builderNoRes : TPUReplicatedJobConfig := { builderA with reservation := none }

def jobNoRes : Job :=
  { kind := .tpuGKEJob, config := { jobCfgA with builder := builderNoRes } }

def jobF : Job := { kind := .flinkTPUGKEJob, config := jobCfgA }

def jobOther : Job := { kind := .otherGKEJob, config := jobCfgA }

def accBad : AcceleratorConfig := { instance_type := "tpu-v9-99", num_replicas := 1 }

def builderBad : TPUReplicatedJobConfig := { builderA with accelerator := accBad }

def jobBadAcc : Job :=
  { kind := .tpuGKEJob, config := { jobCfgA with builder := builderBad } }

def builderVar : TPUReplicatedJobConfig :=
  { accelerator := { instance_type := "weird", num_replicas := 1 },
    reservation := none, location_hint := some "lh",
    enable_tpu_ici_resiliency := true, enable_tpu_smart_repair := false }

def jobVar : Job :=
  { kind := .flinkTPUGKEJob, config := { jobCfgA with builder := builderVar } }

/-- The `create_node_pools` argument record observed for `jobA` when the
decision falls back to spot quota. -/
def callSpotA : CreateNodePoolsCall :=
  { node_pool_names := ["ns1-job1-0"],
    project := "proj",
    zone := "z1",
    cluster := "cl",
    pre_provisioner_id := "pp",
    num_nodes_per_pool := 4,
    machine_type := "tpu-v5",
    topology := some "2x2x1",
    use_spot_vm := true,
    reservation := none,
    location_hint := none,
    enable_tpu_ici_resiliency := false,
    service_account_email := none,
    additional_labels_list := [[("job-key", "53dc36e4d44c7be49531d4d2b7e1f83f7bf8863e"),
                                ("cloud.google.com/gke-tpu-auto-restart", "true")]],
    retry_interval := 30,
    wait_timeout := 1800 }

/-- The record observed for `jobA` under tier `"0"` with its reservation. -/
def callResA : CreateNodePoolsCall :=
  { callSpotA with use_spot_vm := false, reservation := some "resA" }

/-- The record observed for `jobA` when a priority of 5 is resolved. -/
def callPrioA : CreateNodePoolsCall :=
  { callResA with additional_labels_list :=
      [[("job-key", "53dc36e4d44c7be49531d4d2b7e1f83f7bf8863e"),
        ("job-priority", "5"),
        ("cloud.google.com/gke-tpu-auto-restart", "true")]] }

/-- The record observed for the inference-category job `jobF`. -/
def callFlinkA : CreateNodePoolsCall := { callResA with topology := none }

/-- The `delete_node_pools` argument record observed for `jobA`. -/
def dcallA : DeleteNodePoolsCall :=
  { node_pool_names := ["ns1-job1-0"], project := "proj", zone := "z1",
    cluster := "cl", retry_interval := 30, wait_timeout := 1800 }

end NodePoolProvisioner


namespace NodePoolProvisioner

/-! ### Helper lemmas -/

/-- Sanity anchor: the embedded SHA-1 reproduces the standard test vector
for the message `abc`. -/
theorem sha1Hex_test_vector_abc :
    sha1Hex "abc" = "a9993e364706816aba3e25717850c26c9cd0d89d" := by rfl

/-- Sanity anchor: the embedded SHA-1 reproduces the standard test vector
for the empty message. -/
theorem sha1Hex_test_vector_empty :
    sha1Hex "" = "da39a3ee5e6b4b0d3255bfef95601890afd80709" := by rfl

theorem provisioning_decision_tier0_some {env : Env} (r : String)
    (h : env.bastion_tier = some "0") :
    provisioning_decision env (some r) = (false, some r) := by
  simp [provisioning_decision, getBastionTier, tierEqStrZero, h]

theorem provisioning_decision_tier1 {env : Env} (r : Option String)
    (h : env.bastion_tier = some "1") :
    provisioning_decision env r = (true, none) := by
  simp [provisioning_decision, getBastionTier, tierEqStrZero, h]

theorem provisioning_decision_noRes (env : Env) :
    provisioning_decision env none = (true, none) := by
  simp [provisioning_decision]

theorem provisioning_decision_spot_then_none (env : Env) (r : Option String)
    (h : (provisioning_decision env r).1 = true) :
    (provisioning_decision env r).2 = none := by
  cases hc : tierEqStrZero (getBastionTier env) && r.isSome
  · simp [provisioning_decision, hc]
  · simp [provisioning_decision, hc] at h

theorem create_for_unsupported_eq {it : String → String}
    {cat : String → Option SystemCharacteristics}
    {cnpn : String → String → Nat → String} {deser : String → Option Int}
    {cfg : ProvisionerConfig} {env : Env} {job : Job}
    (hsup : _PRE_PROVISIONER_SUPPORTED_JOBS job.kind = false) :
    create_for it cat cnpn deser cfg env job = .error (.typeError job.kind) := by
  simp [create_for, hsup]

theorem create_for_catalog_miss_eq {it : String → String}
    {cat : String → Option SystemCharacteristics}
    {cnpn : String → String → Nat → String} {deser : String → Option Int}
    {cfg : ProvisionerConfig} {env : Env} {job : Job}
    (hsup : _PRE_PROVISIONER_SUPPORTED_JOBS job.kind = true)
    (hcat : cat (it job.config.builder.accelerator.instance_type) = none) :
    create_for it cat cnpn deser cfg env job
      = .error (.keyError (it job.config.builder.accelerator.instance_type)) := by
  simp [create_for, hsup, hcat]

theorem create_for_ok_eq {it : String → String}
    {cat : String → Option SystemCharacteristics}
    {cnpn : String → String → Nat → String} {deser : String → Option Int}
    {cfg : ProvisionerConfig} {env : Env} {job : Job}
    {sc : SystemCharacteristics}
    (hsup : _PRE_PROVISIONER_SUPPORTED_JOBS job.kind = true)
    (hcat : cat (it job.config.builder.accelerator.instance_type) = some sc) :
    create_for it cat cnpn deser cfg env job = .ok {
      node_pool_names := (List.range job.config.builder.accelerator.num_replicas).map
        (fun i => cnpn job.config.jobset_namespace job.config.name i),
      project := cfg.project,
      zone := cfg.zone,
      cluster := cfg.cluster,
      pre_provisioner_id := cfg.name,
      num_nodes_per_pool := sc.vms_per_slice,
      machine_type := sc.gce_machine_type,
      topology := if _INFERENCE_JOBS job.kind then none else some sc.topology,
      use_spot_vm := (provisioning_decision env job.config.builder.reservation).1,
      reservation := (provisioning_decision env job.config.builder.reservation).2,
      location_hint := job.config.builder.location_hint,
      enable_tpu_ici_resiliency := job.config.builder.enable_tpu_ici_resiliency,
      service_account_email := cfg.service_account_email,
      additional_labels_list := (List.range job.config.builder.accelerator.num_replicas).map
        (fun i => additional_labels (resolved_job_priority deser env)
          job.config.builder.enable_tpu_smart_repair
          job.config.jobset_namespace job.config.name i),
      retry_interval := cfg.retry_interval,
      wait_timeout := cfg.wait_timeout } := by
  simp [create_for, hsup, hcat]

theorem delete_for_unsupported_eq {cnpn : String → String → Nat → String}
    {cfg : ProvisionerConfig} {job : Job}
    (hsup : _PRE_PROVISIONER_SUPPORTED_JOBS job.kind = false) :
    delete_for cnpn cfg job = .error (.typeError job.kind) := by
  simp [delete_for, hsup]

theorem delete_for_ok_eq {cnpn : String → String → Nat → String}
    {cfg : ProvisionerConfig} {job : Job}
    (hsup : _PRE_PROVISIONER_SUPPORTED_JOBS job.kind = true) :
    delete_for cnpn cfg job = .ok {
      node_pool_names := (List.range job.config.builder.accelerator.num_replicas).map
        (fun i => cnpn job.config.jobset_namespace job.config.name i),
      project := cfg.project,
      zone := cfg.zone,
      cluster := cfg.cluster,
      retry_interval := cfg.retry_interval,
      wait_timeout := cfg.wait_timeout } := by
  simp [delete_for, hsup]

theorem getD_range_map {α : Type} (f : Nat → α) (n i : Nat) (d : α)
    (hi : i < n) : ((List.range n).map f).getD i d = f i := by
  rw [List.getD_eq_getElem?_getD]
  simp [List.getElem?_map, List.getElem?_range, hi]

theorem lookupLabel_job_key (jp : Option Int) (sr : Bool) (ns jobName : String)
    (i : Nat) :
    lookupLabel (additional_labels jp sr ns jobName i) "job-key"
      = some (sha1Hex (job_key_string ns jobName i)) := by
  cases jp <;> cases sr <;> rfl

theorem lookupLabel_auto_restart (jp : Option Int) (ns jobName : String)
    (i : Nat) :
    lookupLabel (additional_labels jp true ns jobName i)
      "cloud.google.com/gke-tpu-auto-restart" = some "true" := by
  cases jp <;> rfl

theorem lookupLabel_priority_some (p : Int) (sr : Bool) (ns jobName : String)
    (i : Nat) :
    lookupLabel (additional_labels (some p) sr ns jobName i) "job-priority"
      = some (toString p) := by
  cases sr <;> rfl

theorem lookupLabel_priority_none (sr : Bool) (ns jobName : String) (i : Nat) :
    lookupLabel (additional_labels none sr ns jobName i) "job-priority"
      = none := by
  cases sr <;> rfl

theorem sha1Hex_length (s : String) : (sha1Hex s).length = 40 := by
  simp [sha1Hex, sha1HexBytes, String.length, wordHex]

end NodePoolProvisioner

namespace NodePoolProvisioner

/-! ### Claims -/

/-- C1: for every job request, the provisioning decision computed by
`create_for` satisfies the policy table: tier `"0"` with a reservation `R`
gives `(use_spot=false, reservation=R)`; tier `"1"` with a reservation gives
`(use_spot=true, reservation=None)`; tier `"0"` without a reservation gives
`(use_spot=true, reservation=None)`. -/
theorem claim_C1_policy_table {it : String → String}
    {cat : String → Option SystemCharacteristics}
    {cnpn : String → String → Nat → String} {deser : String → Option Int}
    {cfg : ProvisionerConfig} {env : Env} {job : Job}
    {call : CreateNodePoolsCall}
    (hok : create_for it cat cnpn deser cfg env job = Except.ok call) :
    (env.bastion_tier = some "0" →
      ∀ r, job.config.builder.reservation = some r →
        call.use_spot_vm = false ∧ call.reservation = some r)
    ∧ (env.bastion_tier = some "1" →
        job.config.builder.reservation.isSome = true →
        call.use_spot_vm = true ∧ call.reservation = none)
    ∧ (env.bastion_tier = some "0" → job.config.builder.reservation = none →
        call.use_spot_vm = true ∧ call.reservation = none) := by
  cases hsup : _PRE_PROVISIONER_SUPPORTED_JOBS job.kind with
  | false => rw [create_for_unsupported_eq hsup] at hok; simp at hok
  | true =>
    cases hcat : cat (it job.config.builder.accelerator.instance_type) with
    | none => rw [create_for_catalog_miss_eq hsup hcat] at hok; simp at hok
    | some sc =>
      rw [create_for_ok_eq hsup hcat] at hok
      injection hok with h
      subst h
      refine ⟨?_, ?_, ?_⟩
      · intro h0 r hr
        simp [hr, provisioning_decision_tier0_some r h0]
      · intro h1 _
        simp [provisioning_decision_tier1 _ h1]
      · intro _ hr
        simp [hr, provisioning_decision_noRes]

/-- C3: the decision passed to `create_node_pools` never combines
`use_spot_vm = true` with a non-null reservation. -/
theorem claim_C3_spot_reservation_exclusive {it : String → String}
    {cat : String → Option SystemCharacteristics}
    {cnpn : String → String → Nat → String} {deser : String → Option Int}
    {cfg : ProvisionerConfig} {env : Env} {job : Job}
    {call : CreateNodePoolsCall}
    (hok : create_for it cat cnpn deser cfg env job = Except.ok call)
    (hspot : call.use_spot_vm = true) : call.reservation = none := by
  cases hsup : _PRE_PROVISIONER_SUPPORTED_JOBS job.kind with
  | false => rw [create_for_unsupported_eq hsup] at hok; simp at hok
  | true =>
    cases hcat : cat (it job.config.builder.accelerator.instance_type) with
    | none => rw [create_for_catalog_miss_eq hsup hcat] at hok; simp at hok
    | some sc =>
      rw [create_for_ok_eq hsup hcat] at hok
      injection hok with h
      subst h
      have h1 : (provisioning_decision env job.config.builder.reservation).1 = true := by
        simpa using hspot
      simpa using provisioning_decision_spot_then_none env _ h1

/-- C4: for jobs agreeing on `(namespace, job_name, num_node_pools)`, the
ordered pool-name list passed by `create_for` to the create path equals the
one passed by `delete_for` to the delete path. -/
theorem claim_C4_same_pool_names {it : String → String}
    {cat : String → Option SystemCharacteristics}
    {cnpn : String → String → Nat → String} {deser : String → Option Int}
    {cfg : ProvisionerConfig} {env : Env} {j1 j2 : Job}
    {ccall : CreateNodePoolsCall} {dcall : DeleteNodePoolsCall}
    (hns : j1.config.jobset_namespace = j2.config.jobset_namespace)
    (hname : j1.config.name = j2.config.name)
    (hnum : j1.config.builder.accelerator.num_replicas
      = j2.config.builder.accelerator.num_replicas)
    (hc : create_for it cat cnpn deser cfg env j1 = Except.ok ccall)
    (hd : delete_for cnpn cfg j2 = Except.ok dcall) :
    ccall.node_pool_names = dcall.node_pool_names := by
  cases hsup1 : _PRE_PROVISIONER_SUPPORTED_JOBS j1.kind with
  | false => rw [create_for_unsupported_eq hsup1] at hc; simp at hc
  | true =>
    cases hcat : cat (it j1.config.builder.accelerator.instance_type) with
    | none => rw [create_for_catalog_miss_eq hsup1 hcat] at hc; simp at hc
    | some sc =>
      cases hsup2 : _PRE_PROVISIONER_SUPPORTED_JOBS j2.kind with
      | false => rw [delete_for_unsupported_eq hsup2] at hd; simp at hd
      | true =>
        rw [create_for_ok_eq hsup1 hcat] at hc
        rw [delete_for_ok_eq hsup2] at hd
        injection hc with h1
        injection hd with h2
        subst h1
        subst h2
        simp [hns, hname, hnum]

/-- C5: for every replica index `i < num_node_pools`, the label mapping for
pool `i` carries, under the reserved key `"job-key"`, the SHA-1 hex digest of
`f"{namespace}/{job_name}-job-{i}"`, a fixed-length 160-bit digest rendered
as 40 hex characters. -/
theorem claim_C5_scheduling_key_label {it : String → String}
    {cat : String → Option SystemCharacteristics}
    {cnpn : String → String → Nat → String} {deser : String → Option Int}
    {cfg : ProvisionerConfig} {env : Env} {job : Job}
    {call : CreateNodePoolsCall}
    (hok : create_for it cat cnpn deser cfg env job = Except.ok call)
    (i : Nat) (hi : i < job.config.builder.accelerator.num_replicas) :
    lookupLabel (call.additional_labels_list.getD i []) "job-key"
      = some (sha1Hex (job_key_string job.config.jobset_namespace job.config.name i))
    ∧ (sha1Hex (job_key_string job.config.jobset_namespace job.config.name i)).length
      = 40 := by
  refine ⟨?_, sha1Hex_length _⟩
  cases hsup : _PRE_PROVISIONER_SUPPORTED_JOBS job.kind with
  | false => rw [create_for_unsupported_eq hsup] at hok; simp at hok
  | true =>
    cases hcat : cat (it job.config.builder.accelerator.instance_type) with
    | none => rw [create_for_catalog_miss_eq hsup hcat] at hok; simp at hok
    | some sc =>
      rw [create_for_ok_eq hsup hcat] at hok
      injection hok with h
      subst h
      simp [getD_range_map _ _ _ _ hi, lookupLabel_job_key, List.getElem?_range, hi]

/-- C6: for every per-pool label mapping: the auto-repair flag set implies the
vendor auto-restart key maps to `"true"`; a resolved priority `p` implies the
`"job-priority"` key maps to exactly `str(p)`; no resolved priority implies
no `"job-priority"` key. -/
theorem claim_C6_conditional_labels {it : String → String}
    {cat : String → Option SystemCharacteristics}
    {cnpn : String → String → Nat → String} {deser : String → Option Int}
    {cfg : ProvisionerConfig} {env : Env} {job : Job}
    {call : CreateNodePoolsCall}
    (hok : create_for it cat cnpn deser cfg env job = Except.ok call)
    (i : Nat) (hi : i < job.config.builder.accelerator.num_replicas) :
    (job.config.builder.enable_tpu_smart_repair = true →
      lookupLabel (call.additional_labels_list.getD i [])
        "cloud.google.com/gke-tpu-auto-restart" = some "true")
    ∧ (∀ p, resolved_job_priority deser env = some p →
        lookupLabel (call.additional_labels_list.getD i []) "job-priority"
          = some (toString p))
    ∧ (resolved_job_priority deser env = none →
        lookupLabel (call.additional_labels_list.getD i []) "job-priority"
          = none) := by
  cases hsup : _PRE_PROVISIONER_SUPPORTED_JOBS job.kind with
  | false => rw [create_for_unsupported_eq hsup] at hok; simp at hok
  | true =>
    cases hcat : cat (it job.config.builder.accelerator.instance_type) with
    | none => rw [create_for_catalog_miss_eq hsup hcat] at hok; simp at hok
    | some sc =>
      rw [create_for_ok_eq hsup hcat] at hok
      injection hok with h
      subst h
      refine ⟨?_, ?_, ?_⟩
      · intro hsr
        simp [getD_range_map _ _ _ _ hi, hsr, lookupLabel_auto_restart,
          List.getElem?_range, hi]
      · intro p hp
        simp [getD_range_map _ _ _ _ hi, hp, lookupLabel_priority_some,
          List.getElem?_range, hi]
      · intro hp
        simp [getD_range_map _ _ _ _ hi, hp, lookupLabel_priority_none,
          List.getElem?_range, hi]

/-- C7: the topology passed to the create call is unset for inference-category
jobs and equals the topology of the catalog shape otherwise. -/
theorem claim_C7_topology {it : String → String}
    {cat : String → Option SystemCharacteristics}
    {cnpn : String → String → Nat → String} {deser : String → Option Int}
    {cfg : ProvisionerConfig} {env : Env} {job : Job}
    {call : CreateNodePoolsCall} {sc : SystemCharacteristics}
    (hcat : cat (it job.config.builder.accelerator.instance_type) = some sc)
    (hok : create_for it cat cnpn deser cfg env job = Except.ok call) :
    call.topology
      = if _INFERENCE_JOBS job.kind then none else some sc.topology := by
  cases hsup : _PRE_PROVISIONER_SUPPORTED_JOBS job.kind with
  | false => rw [create_for_unsupported_eq hsup] at hok; simp at hok
  | true =>
    rw [create_for_ok_eq hsup hcat] at hok
    injection hok with h
    rw [← h]

/-- C8: a supported job whose (inferred) accelerator type is absent from the
catalog makes `create_for` raise the catalog `KeyError`; since the embedding
returns the would-be `create_node_pools` argument record only on success, no
pool name is derived and no control-plane call is issued. -/
theorem claim_C8_unknown_accelerator {it : String → String}
    {cat : String → Option SystemCharacteristics}
    {cnpn : String → String → Nat → String} {deser : String → Option Int}
    {cfg : ProvisionerConfig} {env : Env} {job : Job}
    (hsup : _PRE_PROVISIONER_SUPPORTED_JOBS job.kind = true)
    (hcat : cat (it job.config.builder.accelerator.instance_type) = none) :
    create_for it cat cnpn deser cfg env job
      = Except.error (ProvisionError.keyError
          (it job.config.builder.accelerator.instance_type)) :=
  create_for_catalog_miss_eq hsup hcat

/-- C9: a job outside the supported categories makes both `create_for` and
`delete_for` raise the `TypeError`, so neither derives pool names nor issues
a control-plane call. -/
theorem claim_C9_unsupported_type {it : String → String}
    {cat : String → Option SystemCharacteristics}
    {cnpn : String → String → Nat → String} {deser : String → Option Int}
    {cfg : ProvisionerConfig} {env : Env} {job : Job}
    (hsup : _PRE_PROVISIONER_SUPPORTED_JOBS job.kind = false) :
    create_for it cat cnpn deser cfg env job
        = Except.error (ProvisionError.typeError job.kind)
    ∧ delete_for cnpn cfg job
        = Except.error (ProvisionError.typeError job.kind) :=
  ⟨create_for_unsupported_eq hsup, delete_for_unsupported_eq hsup⟩

/-- C10: the name list `delete_for` passes to the delete path depends only on
the namespace, name and replica count of the job — two supported jobs agreeing on
those three fields yield identical `delete_node_pools` calls — and the call
always succeeds (`delete_for` consults neither catalog nor environment, as
its signature shows). -/
theorem claim_C10_delete_depends_only_on_identity
    {cnpn : String → String → Nat → String} {cfg : ProvisionerConfig}
    {j1 j2 : Job}
    (h1 : _PRE_PROVISIONER_SUPPORTED_JOBS j1.kind = true)
    (h2 : _PRE_PROVISIONER_SUPPORTED_JOBS j2.kind = true)
    (hns : j1.config.jobset_namespace = j2.config.jobset_namespace)
    (hname : j1.config.name = j2.config.name)
    (hnum : j1.config.builder.accelerator.num_replicas
      = j2.config.builder.accelerator.num_replicas) :
    delete_for cnpn cfg j1 = delete_for cnpn cfg j2
    ∧ isOkResult (delete_for cnpn cfg j1) = true := by
  rw [delete_for_ok_eq h1, delete_for_ok_eq h2, hns, hname, hnum]
  exact ⟨rfl, rfl⟩

/-- C2: refuted by the code (divergence witness).  With the tier signal
absent from the environment and a reservation present on the request, the
code produces `(use_spot=true, reservation=None)`, not the claimed
`(use_spot=false, reservation=R)`: `os.environ.get("BASTION_TIER", 0)`
defaults to the integer `0`, which Python compares unequal to the string
`"0"`, so the reservation branch is never taken when the variable is unset. -/
theorem claim_C2_tier_absent_divergence :
    envNoTier.bastion_tier = none
    ∧ jobA.config.builder.reservation = some "resA"
    ∧ create_for inferC catalogC cnpnC deserC cfgC envNoTier jobA
        = Except.ok callSpotA
    ∧ callSpotA.use_spot_vm = true
    ∧ callSpotA.reservation = none :=
  ⟨rfl, rfl, by rfl, rfl, rfl⟩

end NodePoolProvisioner

namespace NodePoolProvisioner

/-! ### Witnesses -/

/-- Witness for C1: the three policy-table rows evaluated on concrete inputs. -/
theorem claim_C1_policy_table_witness :
    (create_for inferC catalogC cnpnC deserC cfgC envTier0 jobA = Except.ok callResA
      ∧ callResA.use_spot_vm = false ∧ callResA.reservation = some "resA")
    ∧ (create_for inferC catalogC cnpnC deserC cfgC envTier1 jobA = Except.ok callSpotA
      ∧ callSpotA.use_spot_vm = true ∧ callSpotA.reservation = none)
    ∧ (create_for inferC catalogC cnpnC deserC cfgC envTier0 jobNoRes = Except.ok callSpotA
      ∧ callSpotA.use_spot_vm = true ∧ callSpotA.reservation = none) := by
  have h0 : create_for inferC catalogC cnpnC deserC cfgC envTier0 jobA
      = Except.ok callResA := by rfl
  have h1 : create_for inferC catalogC cnpnC deserC cfgC envTier1 jobA
      = Except.ok callSpotA := by rfl
  have h2 : create_for inferC catalogC cnpnC deserC cfgC envTier0 jobNoRes
      = Except.ok callSpotA := by rfl
  have t0 := (claim_C1_policy_table h0).1 rfl "resA" rfl
  have t1 := (claim_C1_policy_table h1).2.1 rfl rfl
  have t2 := (claim_C1_policy_table h2).2.2 rfl rfl
  exact ⟨⟨h0, t0⟩, ⟨h1, t1⟩, ⟨h2, t2⟩⟩

/-- Witness for C3: under tier `"1"` the call uses spot and carries no
reservation. -/
theorem claim_C3_witness :
    create_for inferC catalogC cnpnC deserC cfgC envTier1 jobA = Except.ok callSpotA
    ∧ callSpotA.use_spot_vm = true ∧ callSpotA.reservation = none := by
  have h1 : create_for inferC catalogC cnpnC deserC cfgC envTier1 jobA
      = Except.ok callSpotA := by rfl
  exact ⟨h1, rfl, claim_C3_spot_reservation_exclusive h1 rfl⟩

/-- Witness for C4: create and delete derive the same name list for `jobA`. -/
theorem claim_C4_witness :
    create_for inferC catalogC cnpnC deserC cfgC envTier0 jobA = Except.ok callResA
    ∧ delete_for cnpnC cfgC jobA = Except.ok dcallA
    ∧ callResA.node_pool_names = dcallA.node_pool_names := by
  have hc : create_for inferC catalogC cnpnC deserC cfgC envTier0 jobA
      = Except.ok callResA := by rfl
  have hd : delete_for cnpnC cfgC jobA = Except.ok dcallA := by rfl
  exact ⟨hc, hd, claim_C4_same_pool_names rfl rfl rfl hc hd⟩

/-- Witness for C5: the `job-key` label of pool 0 of `jobA` is the SHA-1
digest of `"ns1/job1-job-0"`, of length 40. -/
theorem claim_C5_witness :
    create_for inferC catalogC cnpnC deserC cfgC envTier0 jobA = Except.ok callResA
    ∧ lookupLabel (callResA.additional_labels_list.getD 0 []) "job-key"
        = some (sha1Hex (job_key_string "ns1" "job1" 0))
    ∧ (sha1Hex (job_key_string "ns1" "job1" 0)).length = 40 := by
  have h0 : create_for inferC catalogC cnpnC deserC cfgC envTier0 jobA
      = Except.ok callResA := by rfl
  have t := claim_C5_scheduling_key_label h0 0 (by decide)
  exact ⟨h0, t.1, t.2⟩

/-- Witness for C6: auto-restart and priority labels on concrete inputs,
with and without a resolved priority. -/
theorem claim_C6_witness :
    create_for inferC catalogC cnpnC deserC cfgC envPrio jobA = Except.ok callPrioA
    ∧ lookupLabel (callPrioA.additional_labels_list.getD 0 [])
        "cloud.google.com/gke-tpu-auto-restart" = some "true"
    ∧ lookupLabel (callPrioA.additional_labels_list.getD 0 []) "job-priority"
        = some (toString (5 : Int))
    ∧ create_for inferC catalogC cnpnC deserC cfgC envTier0 jobA = Except.ok callResA
    ∧ lookupLabel (callResA.additional_labels_list.getD 0 []) "job-priority"
        = none := by
  have hp : create_for inferC catalogC cnpnC deserC cfgC envPrio jobA
      = Except.ok callPrioA := by rfl
  have h0 : create_for inferC catalogC cnpnC deserC cfgC envTier0 jobA
      = Except.ok callResA := by rfl
  have tp := claim_C6_conditional_labels hp 0 (by decide)
  have t0 := claim_C6_conditional_labels h0 0 (by decide)
  exact ⟨hp, tp.1 rfl, tp.2.1 5 (by decide), h0, t0.2.2 (by decide)⟩

/-- Witness for C7: the inference job gets no topology; the training job gets
the catalog topology. -/
theorem claim_C7_witness :
    create_for inferC catalogC cnpnC deserC cfgC envTier0 jobF = Except.ok callFlinkA
    ∧ callFlinkA.topology = none
    ∧ create_for inferC catalogC cnpnC deserC cfgC envTier0 jobA = Except.ok callResA
    ∧ callResA.topology = some "2x2x1" := by
  have hcatF : catalogC (inferC jobF.config.builder.accelerator.instance_type)
      = some scV4 := by decide
  have hcatA : catalogC (inferC jobA.config.builder.accelerator.instance_type)
      = some scV4 := by decide
  have hf : create_for inferC catalogC cnpnC deserC cfgC envTier0 jobF
      = Except.ok callFlinkA := by rfl
  have h0 : create_for inferC catalogC cnpnC deserC cfgC envTier0 jobA
      = Except.ok callResA := by rfl
  have tf := claim_C7_topology hcatF hf
  have t0 := claim_C7_topology hcatA h0
  refine ⟨hf, ?_, h0, ?_⟩
  · simpa [_INFERENCE_JOBS, jobF] using tf
  · simpa [_INFERENCE_JOBS, jobA, scV4] using t0

/-- Witness for C8: a supported job with accelerator type `"tpu-v9-99"`,
absent from the catalog, makes `create_for` fail with the `KeyError`. -/
theorem claim_C8_witness :
    _PRE_PROVISIONER_SUPPORTED_JOBS jobBadAcc.kind = true
    ∧ catalogC (inferC jobBadAcc.config.builder.accelerator.instance_type) = none
    ∧ create_for inferC catalogC cnpnC deserC cfgC envTier0 jobBadAcc
        = Except.error (ProvisionError.keyError "tpu-v9-99") := by
  refine ⟨by decide, by decide, ?_⟩
  exact claim_C8_unknown_accelerator (by decide) (by decide)

/-- Witness for C9: an unsupported job class is rejected by both entry
points. -/
theorem claim_C9_witness :
    _PRE_PROVISIONER_SUPPORTED_JOBS jobOther.kind = false
    ∧ (create_for inferC catalogC cnpnC deserC cfgC envTier0 jobOther
        = Except.error (ProvisionError.typeError JobKind.otherGKEJob)
      ∧ delete_for cnpnC cfgC jobOther
        = Except.error (ProvisionError.typeError JobKind.otherGKEJob)) :=
  ⟨by decide, claim_C9_unsupported_type (by decide)⟩

/-- Witness for C10: two jobs agreeing only on namespace, name and replica
count — one with an accelerator type absent from the catalog — get identical,
successful delete calls. -/
theorem claim_C10_witness :
    catalogC (inferC jobBadAcc.config.builder.accelerator.instance_type) = none
    ∧ jobBadAcc.config.builder ≠ jobVar.config.builder
    ∧ jobBadAcc.kind ≠ jobVar.kind
    ∧ (delete_for cnpnC cfgC jobBadAcc = delete_for cnpnC cfgC jobVar
      ∧ isOkResult (delete_for cnpnC cfgC jobBadAcc) = true) :=
  ⟨by decide, by decide, by decide,
    claim_C10_delete_depends_only_on_identity rfl rfl rfl rfl rfl⟩

end NodePoolProvisioner
